import Mathlib

/-!
Verification development for `app/ui/dialogs.py` of DemonEditor.

The module shows GTK dialogs: message boxes (info / error / question / about),
a native file chooser, a text-input dialog and a long-lived "wait" dialog,
loading dialog layouts from a glade resource file through a small LRU cache
(`functools.lru_cache(maxsize=5)`), with a Windows-only fallback that
translates the glade XML by hand.

The toolkit (GTK), the filesystem, the XML parser (`xml.etree.ElementTree`)
and the gettext catalog are external collaborators; they are modelled as
explicit parameters (`Env`, `FileSystem`, `TranslationCatalog`, user-response
models), while the control flow of the repository's own functions is
translated directly from the source.
-/

/-! ## Toolkit constants (PyGObject `Gtk` enums, by their numeric values) -/

def Gtk.ResponseType.ACCEPT : Int := -3

def Gtk.ResponseType.OK : Int := -5

def Gtk.ResponseType.CANCEL : Int := -6

def Gtk.ButtonsType.NONE : Int := 0

def Gtk.ButtonsType.OK : Int := 1

def Gtk.ButtonsType.OK_CANCEL : Int := 5

def Gtk.FileChooserAction.SELECT_FOLDER : Int := 2

/-! ## Data model -/

/-- The `DialogType` enum of `dialogs.py`. -/
inductive DialogType where
  | INPUT
  | CHOOSER
  | ERROR
  | QUESTION
  | INFO
  | ABOUT
  | WAIT
deriving DecidableEq, Repr

/-- A Python value returned by the dialog functions: either a toolkit
response code (an `int`) or a string (entered text / chosen path). -/
inductive DialogValue where
  | response (code : Int)
  | text (s : String)
deriving DecidableEq, Repr

/-- Python truthiness-based `or` on an optional string: `x or d` is `d`
when `x` is `None` or the empty string, else `x`.  Also models
`x if x else d`. -/
def pyOr (o : Option String) (d : String) : String :=
  match o with
  | some s => if s = "" then d else s
  | none => d

/-- Python truthiness-based `x if x else d` on an optional int
(`None` and `0` are falsy). -/
def pyOrInt (o : Option Int) (d : Int) : Int :=
  match o with
  | some n => if n = 0 then d else n
  | none => d

/-- Whether `s` ends with `suffix` (an executable model of a trailing
separator check on path strings). -/
def strEndsWith (s suffix : String) : Bool :=
  decide (suffix.data.length ≤ s.data.length ∧
    s.data.drop (s.data.length - suffix.data.length) = suffix.data)

/-- The gettext catalog collaborator: `lookup domain message` is the
translation of `message` in `domain`, when one exists. -/
structure TranslationCatalog where
  lookup : String → String → Option String

/-- The fixed text domain (`TEXT_DOMAIN` of `app.ui.uicommons`, which is not
under `src/`; its concrete value is irrelevant to the claims). -/
def TEXT_DOMAIN : String := "demon-editor"

/-- `gettext.dgettext(domain, message)`: the catalog translation when one
exists, otherwise `message` unchanged (documented gettext fallback). -/
def dgettext (cat : TranslationCatalog) (domain : String) (message : String) : String :=
  (cat.lookup domain message).getD message

/-- `get_message` of `dialogs.py`: returns the translated message. -/
def get_message (cat : TranslationCatalog) (message : String) : String :=
  dgettext cat TEXT_DOMAIN message

/-! ## XML model (`xml.etree.ElementTree` collaborator) -/

/-- An XML element: tag, attributes, text and child elements.  `ElementTree`
text that is absent is modelled as the empty string. -/
inductive XmlElem where
  | elem (tag : String) (attrs : List (String × String)) (text : String)
      (children : List XmlElem)

/-- The tag of an element. -/
def XmlElem.tagOf : XmlElem → String
  | .elem t _ _ _ => t

/-- The attribute list of an element. -/
def XmlElem.attrsOf : XmlElem → List (String × String)
  | .elem _ a _ _ => a

/-- The text of an element. -/
def XmlElem.textOf : XmlElem → String
  | .elem _ _ x _ => x

/-- `e.attrib.get(key, None)`: first attribute with the given name. -/
def attrLookup : List (String × String) → String → Option String
  | [], _ => none
  | (k, v) :: rest, key => if k = key then some v else attrLookup rest key

mutual

/-- The body of the `for e in root.iter(tag)` loop of `translate_xml`:
every element (the root included) whose tag is `tag` and whose
`translatable` attribute is `"yes"` gets its text replaced by
`get_message` of that text; children are visited recursively
(`iter` is a document-order traversal of the whole subtree). -/
def translate_elem (cat : TranslationCatalog) (tag : String) : XmlElem → XmlElem
  | .elem t attrs text children =>
    .elem t attrs
      (if t = tag ∧ attrLookup attrs "translatable" = some "yes" then
        get_message cat text
      else text)
      (translate_elems cat tag children)

/-- `translate_elem` mapped over a list of children. -/
def translate_elems (cat : TranslationCatalog) (tag : String) : List XmlElem → List XmlElem
  | [] => []
  | e :: es => translate_elem cat tag e :: translate_elems cat tag es

end

/-- Serialization of an attribute list. -/
def attrsString (attrs : List (String × String)) : String :=
  String.join (attrs.map (fun a => " " ++ a.1 ++ "=\"" ++ a.2 ++ "\""))

mutual

/-- A rendering of `ET.tostring(root, encoding="unicode", method="xml")`
on the model tree. -/
def ET_tostring : XmlElem → String
  | .elem t attrs text children =>
    "<" ++ t ++ attrsString attrs ++ ">" ++ text ++ childrenString children
      ++ "</" ++ t ++ ">"

/-- Serialization of a list of children. -/
def childrenString : List XmlElem → String
  | [] => ""
  | e :: es => ET_tostring e ++ childrenString es

end

mutual

/-- All elements of a subtree in document order, the root first
(the order `root.iter(tag)` visits them, before tag filtering). -/
def allNodes : XmlElem → List XmlElem
  | .elem t a x cs => .elem t a x cs :: allNodesList cs

/-- `allNodes` over a list of sibling subtrees. -/
def allNodesList : List XmlElem → List XmlElem
  | [] => []
  | e :: es => allNodes e ++ allNodesList es

end

/-! ## Environment collaborators -/

/-- Platform and filesystem collaborators used by the module:
`IS_WIN` and `SEP` come from `app.settings`; `read_file` is
`open(path).read` (the `"".join(f)` of `get_dialogs_string`);
`parse_file` is `ET.parse(path).getroot()`. -/
structure Env where
  IS_WIN : Bool
  SEP : String
  read_file : String → String
  parse_file : String → XmlElem

/-- `translate_xml(path, tag)` of `dialogs.py`: parse the file, translate
every `translatable="yes"` node with the given tag, serialize. -/
def translate_xml (env : Env) (cat : TranslationCatalog) (path tag : String) : String :=
  ET_tostring (translate_elem cat tag (env.parse_file path))

/-! ## LRU cache (`functools.lru_cache(maxsize=5)`) -/

/-- Lookup in an association list (cache entries, most recently used first). -/
def lruLookup {α β : Type} [DecidableEq α] : List (α × β) → α → Option β
  | [], _ => none
  | (k, v) :: rest, key => if k = key then some v else lruLookup rest key

/-- Remove the entry with the given key (first occurrence), if any. -/
def eraseKey {α β : Type} [DecidableEq α] : List (α × β) → α → List (α × β)
  | [], _ => []
  | (k, v) :: rest, key => if k = key then rest else (k, v) :: eraseKey rest key

/-- One call through an LRU cache of capacity `cap`: on a hit the entry moves
to the front (most recently used) and no computation runs; on a miss the
value is computed, inserted at the front, and the least recently used entry
is evicted when the capacity is exceeded.  Returns the value, the new cache
state, and the number of underlying computations performed (`0` or `1`). -/
def lruCall {α β : Type} [DecidableEq α] (cap : Nat) (compute : α → β)
    (st : List (α × β)) (key : α) : β × List (α × β) × Nat :=
  match lruLookup st key with
  | some v => (v, ((key, v) :: eraseKey st key).take cap, 0)
  | none => (compute key, ((key, compute key) :: eraseKey st key).take cap, 1)

/-- A sequence of cached calls; returns the final cache state and the total
number of underlying computations. -/
def lruRun {α β : Type} [DecidableEq α] (cap : Nat) (compute : α → β) :
    List (α × β) → List α → List (α × β) × Nat
  | st, [] => (st, 0)
  | st, key :: ks =>
    let c := lruCall cap compute st key
    let r := lruRun cap compute c.2.1 ks
    (r.1, c.2.2 + r.2)

/-- The underlying (uncached) computation of `get_dialogs_string`: on
Windows, the hand-translated serialized XML; elsewhere the file's text. -/
def get_dialogs_string_uncached (env : Env) (cat : TranslationCatalog)
    (path tag : String) : String :=
  if env.IS_WIN then translate_xml env cat path tag
  else env.read_file path

/-- `get_dialogs_string(path, tag="property")` of `dialogs.py`, decorated
with `@lru_cache(maxsize=5)`: the cache state (keyed by the argument pair)
is passed explicitly.  Returns the value, the new cache state, and the
number of underlying file reads performed by this call. -/
def get_dialogs_string (env : Env) (cat : TranslationCatalog)
    (st : List ((String × String) × String)) (path : String)
    (tag : String := "property") : String × List ((String × String) × String) × Nat :=
  lruCall 5 (fun k => get_dialogs_string_uncached env cat k.1 k.2) st (path, tag)

/-! ## Dialog functions -/

/-- The `settings` collaborator: exposes the base directory used by the
file chooser (`settings.profile_data_path`). -/
structure Settings where
  profile_data_path : String

/-- The filesystem collaborator used by the chooser (`pathlib.Path`):
existence tests and `resolve()` (absolute, normalized; `pathlib` never
produces a trailing separator on a resolved file path). -/
structure FileSystem where
  isDir : String → Bool
  isFile : String → Bool
  resolve : String → String

/-- The user's interaction with a file chooser dialog: the response code
`dialog.run()` returns, `dialog.get_filename()` and
`dialog.get_current_folder()` at that moment. -/
structure ChooserUser where
  response : Int
  filename : Option String
  currentFolder : String

/-- `dialog.get_filename() or dialog.get_current_folder()`. -/
def chooserSelected (user : ChooserUser) : String :=
  pyOr user.filename user.currentFolder

/-- `get_file_chooser_dialog` of `dialogs.py`.  Dialog construction
(`set_create_folders`, filters, `set_current_folder settings.profile_data_path`,
the `action_type` default `SELECT_FOLDER`) only shapes the widget, an
external collaborator; the returned value depends on the response and the
selected path exactly as in the source. -/
def get_file_chooser_dialog (env : Env) (fs : FileSystem) (settings : Settings)
    (action_type : Option Int) (user : ChooserUser) : DialogValue :=
  if user.response = Gtk.ResponseType.ACCEPT then
    if fs.isDir (chooserSelected user) then
      DialogValue.text (fs.resolve (chooserSelected user) ++ env.SEP)
    else if fs.isFile (chooserSelected user) then
      DialogValue.text (fs.resolve (chooserSelected user))
    else
      DialogValue.response user.response
  else
    DialogValue.response user.response

/-- The user's interaction with the input dialog: the entry's final text
and the response code `dialog.run()` returns. -/
structure InputUser where
  entered : String
  response : Int

/-- The observable outcome of `get_input_dialog`: the text the entry is
pre-filled with (`entry.set_text(text if text else "")`) and the returned
value. -/
structure InputRun where
  initialText : String
  result : DialogValue

/-- `get_input_dialog` of `dialogs.py`: pre-fills the entry with `text`
(empty when falsy); returns the entered text on `OK`, else
`Gtk.ResponseType.CANCEL`. -/
def get_input_dialog (text : Option String) (user : InputUser) : InputRun :=
  { initialText := pyOr text ""
    result :=
      if user.response = Gtk.ResponseType.OK then DialogValue.text user.entered
      else DialogValue.response Gtk.ResponseType.CANCEL }

/-- The user's interaction with the remaining dialogs: `messageResponse`
gives, per message type and buttons set shown, the response code of the
button pressed in a message dialog; `aboutResponse` the response for the
about dialog. -/
structure UserModel where
  messageResponse : DialogType → Int → Int
  aboutResponse : Int
  chooser : ChooserUser
  input : InputUser

/-- `get_message_dialog` of `dialogs.py`: builds a message dialog from the
inline template (with the given message type and buttons set), runs it
modally and returns the response code of the button pressed. -/
def get_message_dialog (user : UserModel) (message_type : DialogType)
    (buttons_type : Int) (text : Option String) : Int :=
  user.messageResponse message_type buttons_type

/-- `get_about_dialog` of `dialogs.py`: runs the about dialog modally and
returns the response code. -/
def get_about_dialog (user : UserModel) : Int :=
  user.aboutResponse

/-- `show_dialog` of `dialogs.py`.  The dispatch follows the source's
`if/elif` chain; `settings.map` renders the `dialog_type is CHOOSER and
settings` guard (when `settings` is falsy the chooser branch is not taken
and no later branch matches `CHOOSER`, so the function returns `None`).
A `dialog_type` matching no branch returns `None`. -/
def show_dialog (env : Env) (fs : FileSystem) (user : UserModel)
    (dialog_type : DialogType) (text : Option String) (settings : Option Settings)
    (action_type : Option Int) : Option DialogValue :=
  if dialog_type = DialogType.INFO ∨ dialog_type = DialogType.ERROR then
    some (DialogValue.response
      (get_message_dialog user dialog_type Gtk.ButtonsType.OK text))
  else if dialog_type = DialogType.CHOOSER then
    settings.map fun s => get_file_chooser_dialog env fs s action_type user.chooser
  else if dialog_type = DialogType.INPUT then
    some (get_input_dialog text user.input).result
  else if dialog_type = DialogType.QUESTION then
    some (DialogValue.response
      (get_message_dialog user DialogType.QUESTION
        (pyOrInt action_type Gtk.ButtonsType.OK_CANCEL)
        (some (pyOr text "Are you sure?"))))
  else if dialog_type = DialogType.ABOUT then
    some (DialogValue.response (get_about_dialog user))
  else
    none

/-! ## The wait dialog (`WaitDialog`) and the idle queue -/

/-- A UI mutation a `WaitDialog` method performs on the widgets. -/
inductive WaitAction where
  | setTextAct (text : Option String)
  | hideAct
  | destroyAct
deriving DecidableEq, Repr

/-- The widget state of a wait dialog: the label's text and the dialog's
visibility / destruction. -/
structure WaitUI where
  labelText : String
  visible : Bool
  destroyed : Bool
deriving DecidableEq, Repr

/-- The state of a `WaitDialog` instance together with the toolkit
main-loop idle queue (`GLib` idle sources, in the order they were added). -/
structure WaitDialog where
  ui : WaitUI
  idleQueue : List WaitAction
  default_text : String
deriving DecidableEq, Repr

/-- Modelled from the spec: `run_idle` (from `app.commons`, which is not
under `src/`) defers the decorated call to the toolkit's main-loop idle
queue instead of executing it synchronously in the calling frame. -/
def run_idle (act : WaitAction) (w : WaitDialog) : WaitDialog :=
  { w with idleQueue := w.idleQueue ++ [act] }

/-- `WaitDialog.__init__`: builds the dialog (hidden) and records
`text or self._label.get_text()` as the default text. -/
def WaitDialog.new (text : Option String) (labelInitial : String) : WaitDialog :=
  { ui := { labelText := labelInitial, visible := false, destroyed := false }
    idleQueue := []
    default_text := pyOr text labelInitial }

/-- `WaitDialog.set_text`, decorated with `@run_idle`: the label update is
queued, not applied. -/
def WaitDialog.set_text (w : WaitDialog) (text : Option String) : WaitDialog :=
  run_idle (WaitAction.setTextAct text) w

/-- `WaitDialog.show`: calls `self.set_text(text)` (which is deferred) and
then `self._dialog.show()` directly — `show` itself is not decorated with
`@run_idle`, so the dialog becomes visible synchronously. -/
def WaitDialog.show (w : WaitDialog) (text : Option String) : WaitDialog :=
  let w1 := WaitDialog.set_text w text
  { w1 with ui := { w1.ui with visible := true } }

/-- `WaitDialog.hide`, decorated with `@run_idle`. -/
def WaitDialog.hide (w : WaitDialog) : WaitDialog :=
  run_idle WaitAction.hideAct w

/-- `WaitDialog.destroy`, decorated with `@run_idle`. -/
def WaitDialog.destroy (w : WaitDialog) : WaitDialog :=
  run_idle WaitAction.destroyAct w

/-- The body of one deferred call, executed when the main loop runs the
idle source: `set_text` sets the label to
`get_message(text or self._default_text)`; `hide` / `destroy` act on the
dialog widget. -/
def applyWaitAction (cat : TranslationCatalog) (default_text : String)
    (ui : WaitUI) : WaitAction → WaitUI
  | WaitAction.setTextAct t => { ui with labelText := get_message cat (pyOr t default_text) }
  | WaitAction.hideAct => { ui with visible := false }
  | WaitAction.destroyAct => { ui with destroyed := true }

/-- Draining the main-loop idle queue: the queued calls run in FIFO order
on the UI thread, leaving the queue empty. -/
def drainIdle (cat : TranslationCatalog) (w : WaitDialog) : WaitDialog :=
  { w with
    ui := w.idleQueue.foldl (applyWaitAction cat w.default_text) w.ui
    idleQueue := [] }

/-! ## Concrete collaborator instances (used by the witness theorems) -/

/-- A concrete XML tree: one translatable `property` node. -/
def xmlW : XmlElem :=
  XmlElem.elem "interface" []  ""
    [XmlElem.elem "property" [("translatable", "yes")] "Hello" []]

/-- A concrete non-Windows environment. -/
def envP : Env :=
  { IS_WIN := false, SEP := "/", read_file := fun _ => "content"
    parse_file := fun _ => xmlW }

/-- A concrete Windows environment. -/
def envW : Env :=
  { IS_WIN := true, SEP := "\\", read_file := fun _ => "content"
    parse_file := fun _ => xmlW }

/-- A concrete catalog translating only `"Hello"` in the active domain. -/
def catW : TranslationCatalog :=
  { lookup := fun d k => if d = TEXT_DOMAIN ∧ k = "Hello" then some "Hallo" else none }

/-- A concrete filesystem: `/data` is a directory, `/data/f.txt` a file. -/
def fsW : FileSystem :=
  { isDir := fun p => p = "/data"
    isFile := fun p => p = "/data/f.txt"
    resolve := fun p => p }

/-- A concrete settings collaborator. -/
def setW : Settings := { profile_data_path := "/data" }

/-- A chooser interaction accepting with a directory selected. -/
def userDirW : ChooserUser :=
  { response := Gtk.ResponseType.ACCEPT, filename := some "/data", currentFolder := "/data" }

/-- A chooser interaction accepting with a file selected. -/
def userFileW : ChooserUser :=
  { response := Gtk.ResponseType.ACCEPT, filename := some "/data/f.txt", currentFolder := "/data" }

/-- A chooser interaction cancelling the dialog. -/
def userCancelW : ChooserUser :=
  { response := Gtk.ResponseType.CANCEL, filename := none, currentFolder := "/data" }

/-- A chooser interaction accepting with a nonexistent path selected. -/
def userGhostW : ChooserUser :=
  { response := Gtk.ResponseType.ACCEPT, filename := some "/data/ghost", currentFolder := "/data" }

/-- A concrete user model whose pressed button reports the buttons set shown. -/
def userW : UserModel :=
  { messageResponse := fun _ b => b
    aboutResponse := -4
    chooser := userCancelW
    input := { entered := "", response := Gtk.ResponseType.OK } }

/-- A concrete wait dialog, freshly constructed. -/
def waitW : WaitDialog := WaitDialog.new none "Wait..."

/-! ## Helper lemmas about the LRU cache -/

/-- Looking up a key finds its entry when no earlier entry has that key. -/
theorem lruLookup_split {α β : Type} [DecidableEq α] (key : α) (v : β)
    (pre suf : List (α × β)) (h : key ∉ pre.map Prod.fst) :
    lruLookup (pre ++ (key, v) :: suf) key = some v := by
  induction pre with
  | nil => simp [lruLookup]
  | cons p pre ih =>
    obtain ⟨a, b⟩ := p
    simp only [List.map_cons, List.mem_cons, not_or] at h
    obtain ⟨h1, h2⟩ := h
    simp only [List.cons_append, lruLookup]
    rw [if_neg (fun hak => h1 (by simp [hak]))]
    exact ih h2

/-- Erasing a different key keeps the entry `(key, v)`, with no earlier
entry keyed `key` and with no more entries in front of it than before. -/
theorem eraseKey_split {α β : Type} [DecidableEq α] (k key : α) (v : β)
    (hne : k ≠ key) (pre suf : List (α × β)) (hpre : key ∉ pre.map Prod.fst) :
    ∃ pre' suf', eraseKey (pre ++ (key, v) :: suf) k = pre' ++ (key, v) :: suf' ∧
      key ∉ pre'.map Prod.fst ∧ pre'.length ≤ pre.length := by
  induction pre with
  | nil =>
    refine ⟨[], eraseKey suf k, ?_, by simp, by simp⟩
    simp only [List.nil_append, eraseKey]
    rw [if_neg (fun h : key = k => hne h.symm)]
  | cons p pre ih =>
    obtain ⟨a, b⟩ := p
    simp only [List.map_cons, List.mem_cons, not_or] at hpre
    obtain ⟨h1, h2⟩ := hpre
    by_cases hak : a = k
    · exact ⟨pre, suf, by simp [eraseKey, hak], h2, Nat.le_succ _⟩
    · obtain ⟨pre', suf', heq, hmem, hlen⟩ := ih h2
      refine ⟨(a, b) :: pre', suf', by simp [eraseKey, hak, heq], ?_, by simpa using hlen⟩
      simp only [List.map_cons, List.mem_cons, not_or]
      exact ⟨h1, hmem⟩

/-- Taking `cap` elements keeps a marked element sitting at an index below
`cap`, together with everything in front of it. -/
theorem take_split {γ : Type} (x : γ) :
    ∀ (cap : Nat) (pre suf : List γ), pre.length < cap →
      ∃ suf', (pre ++ x :: suf).take cap = pre ++ x :: suf' := by
  intro cap pre
  induction pre generalizing cap with
  | nil =>
    intro suf h
    obtain ⟨m, rfl⟩ : ∃ m, cap = m + 1 := ⟨cap - 1, by omega⟩
    exact ⟨suf.take m, by simp⟩
  | cons a pre ih =>
    intro suf h
    obtain ⟨m, rfl⟩ : ∃ m, cap = m + 1 := ⟨cap - 1, by omega⟩
    obtain ⟨suf', hs⟩ := ih m suf (by simp at h; omega)
    exact ⟨suf', by simp [hs]⟩

/-- One cached call on a key different from `key` keeps the entry
`(key, v)`: it moves at most one position towards the back and never past
index `cap - 1`. -/
theorem lruCall_state_split {α β : Type} [DecidableEq α] (cap : Nat) (compute : α → β)
    (k key : α) (v : β) (pre suf : List (α × β)) (hne : k ≠ key)
    (hpre : key ∉ pre.map Prod.fst) (hlen : pre.length + 1 < cap) :
    ∃ pre' suf', (lruCall cap compute (pre ++ (key, v) :: suf) k).2.1 =
        pre' ++ (key, v) :: suf' ∧
      key ∉ pre'.map Prod.fst ∧ pre'.length ≤ pre.length + 1 := by
  obtain ⟨p2, s2, herase, hp2, hl2⟩ := eraseKey_split k key v hne pre suf hpre
  have main : ∀ w : β, ∃ pre' suf',
      ((k, w) :: eraseKey (pre ++ (key, v) :: suf) k).take cap =
        pre' ++ (key, v) :: suf' ∧
      key ∉ pre'.map Prod.fst ∧ pre'.length ≤ pre.length + 1 := by
    intro w
    rw [herase]
    obtain ⟨suf', hs⟩ := take_split (key, v) cap ((k, w) :: p2) s2 (by simp; omega)
    refine ⟨(k, w) :: p2, suf', by simpa using hs, ?_, by simp; omega⟩
    simp only [List.map_cons, List.mem_cons, not_or]
    exact ⟨fun h => hne (by simp [h]), hp2⟩
  cases h : lruLookup (pre ++ (key, v) :: suf) k with
  | some w =>
    have hred : (lruCall cap compute (pre ++ (key, v) :: suf) k).2.1 =
        ((k, w) :: eraseKey (pre ++ (key, v) :: suf) k).take cap := by
      simp [lruCall, h]
    rw [hred]
    exact main w
  | none =>
    have hred : (lruCall cap compute (pre ++ (key, v) :: suf) k).2.1 =
        ((k, compute k) :: eraseKey (pre ++ (key, v) :: suf) k).take cap := by
      simp [lruCall, h]
    rw [hred]
    exact main (compute k)

/-- A run of cached calls, none of them on `key` and fewer than the
remaining capacity, keeps the entry `(key, v)` in the cache. -/
theorem lruRun_state_split {α β : Type} [DecidableEq α] (cap : Nat) (compute : α → β)
    (key : α) (v : β) :
    ∀ (ks : List α) (pre suf : List (α × β)), key ∉ ks → key ∉ pre.map Prod.fst →
      pre.length + ks.length < cap →
      ∃ pre' suf', (lruRun cap compute (pre ++ (key, v) :: suf) ks).1 =
          pre' ++ (key, v) :: suf' ∧
        key ∉ pre'.map Prod.fst ∧ pre'.length ≤ pre.length + ks.length := by
  intro ks
  induction ks with
  | nil =>
    intro pre suf _ hpre _
    exact ⟨pre, suf, by simp [lruRun], hpre, by simp⟩
  | cons k ks ih =>
    intro pre suf hks hpre hlen
    simp only [List.mem_cons, not_or] at hks
    obtain ⟨hk, hks⟩ := hks
    simp only [List.length_cons] at hlen
    obtain ⟨p1, s1, heq1, hp1, hl1⟩ :=
      lruCall_state_split cap compute k key v pre suf (fun h => hk h.symm) hpre (by omega)
    have hrun : (lruRun cap compute (pre ++ (key, v) :: suf) (k :: ks)).1 =
        (lruRun cap compute (lruCall cap compute (pre ++ (key, v) :: suf) k).2.1 ks).1 := by
      simp [lruRun]
    rw [hrun, heq1]
    obtain ⟨pre', suf', heq, hmem, hlen'⟩ := ih p1 s1 hks hp1 (by omega)
    exact ⟨pre', suf', heq, hmem, by simp only [List.length_cons]; omega⟩

/-- A cached call whose key is already cached returns the cached value,
moves it to the front and performs no computation. -/
theorem lruCall_hit {α β : Type} [DecidableEq α] (cap : Nat) (compute : α → β)
    (st : List (α × β)) (key : α) (v : β) (h : lruLookup st key = some v) :
    lruCall cap compute st key = (v, ((key, v) :: eraseKey st key).take cap, 0) := by
  simp [lruCall, h]

/-- Two cached calls on the same key, separated by calls on other keys
that fit in the remaining capacity, return the same value and perform at
most one computation between them. -/
theorem lruCall_twice {α β : Type} [DecidableEq α] (cap : Nat) (compute : α → β)
    (st : List (α × β)) (key : α) (ks : List α)
    (hkey : key ∉ ks) (hcap : ks.length + 1 ≤ cap) :
    (lruCall cap compute
        (lruRun cap compute (lruCall cap compute st key).2.1 ks).1 key).1 =
      (lruCall cap compute st key).1 ∧
    (lruCall cap compute st key).2.2 +
      (lruCall cap compute
        (lruRun cap compute (lruCall cap compute st key).2.1 ks).1 key).2.2 ≤ 1 := by
  obtain ⟨m, hm⟩ : ∃ m, cap = m + 1 := ⟨cap - 1, by omega⟩
  have hst1 : (lruCall cap compute st key).2.1 =
      (key, (lruCall cap compute st key).1) :: (eraseKey st key).take m := by
    subst hm
    cases h : lruLookup st key with
    | some w => simp [lruCall, h]
    | none => simp [lruCall, h]
  obtain ⟨pre', suf', heq, hmem, _⟩ :=
    lruRun_state_split cap compute key ((lruCall cap compute st key).1) ks []
      ((eraseKey st key).take m) hkey (by simp) (by simp; omega)
  rw [List.nil_append, ← hst1] at heq
  have hlook : lruLookup
      (lruRun cap compute (lruCall cap compute st key).2.1 ks).1 key =
      some (lruCall cap compute st key).1 := by
    rw [heq]
    exact lruLookup_split key _ pre' suf' hmem
  have hsecond := lruCall_hit cap compute
    (lruRun cap compute (lruCall cap compute st key).2.1 ks).1 key
    ((lruCall cap compute st key).1) hlook
  constructor
  · rw [hsecond]
  · have h1 : (lruCall cap compute st key).2.2 ≤ 1 := by
      cases h : lruLookup st key <;> simp [lruCall, h]
    rw [hsecond]
    simpa using h1

/-! ## Helper lemmas about the XML translation -/

mutual

/-- Flattening a translated subtree is translating every flattened node. -/
theorem allNodes_translate (cat : TranslationCatalog) (tag : String) :
    ∀ e : XmlElem, allNodes (translate_elem cat tag e) =
      (allNodes e).map (translate_elem cat tag)
  | XmlElem.elem t a x cs => by
    simp only [translate_elem, allNodes, List.map_cons]
    rw [allNodesList_translate cat tag cs]

/-- `allNodes_translate` for sibling lists. -/
theorem allNodesList_translate (cat : TranslationCatalog) (tag : String) :
    ∀ es : List XmlElem, allNodesList (translate_elems cat tag es) =
      (allNodesList es).map (translate_elem cat tag)
  | [] => rfl
  | e :: es => by
    simp only [translate_elems, allNodesList, List.map_append]
    rw [allNodes_translate cat tag e, allNodesList_translate cat tag es]

end

/-- The text of a translated node: substituted exactly when the node has
the iterated tag and is flagged `translatable="yes"`. -/
theorem textOf_translate (cat : TranslationCatalog) (tag : String) (e : XmlElem) :
    XmlElem.textOf (translate_elem cat tag e) =
      if e.tagOf = tag ∧ attrLookup e.attrsOf "translatable" = some "yes" then
        get_message cat e.textOf
      else e.textOf := by
  cases e with
  | elem t a x cs => rfl

/-! ## Claim theorems -/

/-- C1: in `get_file_chooser_dialog`, accepting with an existing directory
selected returns the resolved path string followed by the platform
separator; accepting with an existing file selected returns the resolved
path string, which (as `pathlib` resolution yields no trailing separator)
does not end in the separator; any non-ACCEPT response is returned as is
(the toolkit's cancel sentinel). -/
theorem chooser_dialog_result (env : Env) (fs : FileSystem) (settings : Settings)
    (action_type : Option Int) (user : ChooserUser) :
    (user.response = Gtk.ResponseType.ACCEPT →
      fs.isDir (chooserSelected user) = true →
      get_file_chooser_dialog env fs settings action_type user =
        DialogValue.text (fs.resolve (chooserSelected user) ++ env.SEP)) ∧
    (user.response = Gtk.ResponseType.ACCEPT →
      fs.isDir (chooserSelected user) = false →
      fs.isFile (chooserSelected user) = true →
      strEndsWith (fs.resolve (chooserSelected user)) env.SEP = false →
      get_file_chooser_dialog env fs settings action_type user =
        DialogValue.text (fs.resolve (chooserSelected user)) ∧
      strEndsWith (fs.resolve (chooserSelected user)) env.SEP = false) ∧
    (user.response ≠ Gtk.ResponseType.ACCEPT →
      get_file_chooser_dialog env fs settings action_type user =
        DialogValue.response user.response) := by
  refine ⟨?_, ?_, ?_⟩
  · intro hresp hdir
    simp [get_file_chooser_dialog, hresp, hdir]
  · intro hresp hdir hfile hsep
    exact ⟨by simp [get_file_chooser_dialog, hresp, hdir, hfile], hsep⟩
  · intro hresp
    simp [get_file_chooser_dialog, hresp]

/-- C1 witness: the three scenarios at concrete inputs. -/
theorem chooser_dialog_result_witness :
    get_file_chooser_dialog envP fsW setW none userDirW = DialogValue.text "/data/" ∧
    get_file_chooser_dialog envP fsW setW none userFileW = DialogValue.text "/data/f.txt" ∧
    strEndsWith "/data/f.txt" "/" = false ∧
    get_file_chooser_dialog envP fsW setW none userCancelW =
      DialogValue.response Gtk.ResponseType.CANCEL := by
  have h1 := (chooser_dialog_result envP fsW setW none userDirW).1 rfl (by decide)
  have h2 := (chooser_dialog_result envP fsW setW none userFileW).2.1 rfl (by decide)
    (by decide) (by decide)
  have h3 := (chooser_dialog_result envP fsW setW none userCancelW).2.2 (by decide)
  refine ⟨?_, ?_, by decide, ?_⟩
  · rw [h1]; decide
  · rw [h2.1]; decide
  · rw [h3]; decide

/-- C2: `get_input_dialog` returns exactly the entered string (the empty
string included) when the response is `OK`, returns
`Gtk.ResponseType.CANCEL` for every other response regardless of the
entered text, and pre-fills the entry with `text` (empty when `text` is
falsy). -/
theorem input_dialog_result (text : Option String) (user : InputUser) :
    (user.response = Gtk.ResponseType.OK →
      (get_input_dialog text user).result = DialogValue.text user.entered) ∧
    (user.response ≠ Gtk.ResponseType.OK →
      (get_input_dialog text user).result = DialogValue.response Gtk.ResponseType.CANCEL) ∧
    (∀ t, text = some t → t ≠ "" → (get_input_dialog text user).initialText = t) ∧
    (text = none ∨ text = some "" → (get_input_dialog text user).initialText = "") := by
  refine ⟨?_, ?_, ?_, ?_⟩
  · intro h
    simp [get_input_dialog, h]
  · intro h
    simp [get_input_dialog, h]
  · rintro t rfl ht
    simp [get_input_dialog, pyOr, ht]
  · rintro (rfl | rfl) <;> simp [get_input_dialog, pyOr]

/-- C2 witness: confirming with an emptied entry returns the empty string;
a non-OK response returns the cancel sentinel; the entry is pre-filled
with the `text` argument, or empty when it is absent. -/
theorem input_dialog_result_witness :
    (get_input_dialog (some "abc")
        { entered := "", response := Gtk.ResponseType.OK }).result =
      DialogValue.text "" ∧
    (get_input_dialog (some "abc")
        { entered := "xyz", response := Gtk.ResponseType.ACCEPT }).result =
      DialogValue.response Gtk.ResponseType.CANCEL ∧
    (get_input_dialog (some "abc")
        { entered := "", response := Gtk.ResponseType.OK }).initialText = "abc" ∧
    (get_input_dialog none
        { entered := "", response := Gtk.ResponseType.OK }).initialText = "" := by
  refine ⟨?_, ?_, ?_, ?_⟩
  · exact (input_dialog_result (some "abc") _).1 rfl
  · exact (input_dialog_result (some "abc") _).2.1 (by decide)
  · exact (input_dialog_result (some "abc") _).2.2.1 "abc" rfl (by decide)
  · exact (input_dialog_result none _).2.2.2 (Or.inl rfl)

/-- C3: `get_dialogs_string` is memoized with capacity 5 and LRU eviction:
two calls with the same `(path, tag)` key, with at most four intervening
calls on other keys (not exceeding the capacity), return identical content
and perform at most one underlying file read between them. -/
theorem get_dialogs_string_memoized (env : Env) (cat : TranslationCatalog)
    (st : List ((String × String) × String)) (path tag : String)
    (ks : List (String × String)) (hkey : (path, tag) ∉ ks)
    (hlen : ks.length + 1 ≤ 5) :
    (get_dialogs_string env cat
        (lruRun 5 (fun k => get_dialogs_string_uncached env cat k.1 k.2)
          (get_dialogs_string env cat st path tag).2.1 ks).1 path tag).1 =
      (get_dialogs_string env cat st path tag).1 ∧
    (get_dialogs_string env cat st path tag).2.2 +
      (get_dialogs_string env cat
        (lruRun 5 (fun k => get_dialogs_string_uncached env cat k.1 k.2)
          (get_dialogs_string env cat st path tag).2.1 ks).1 path tag).2.2 ≤ 1 := by
  have h := lruCall_twice 5
    (fun k : String × String => get_dialogs_string_uncached env cat k.1 k.2) st
    (path, tag) ks hkey hlen
  simpa only [get_dialogs_string] using h

/-- C3 witness: two calls on `("a", "property")` around one intervening
call, from the empty cache. -/
theorem get_dialogs_string_memoized_witness :
    ((("a" : String), ("property" : String)) ∉
      [(("b" : String), ("property" : String))]) ∧
    ([(("b" : String), ("property" : String))].length + 1 ≤ 5) ∧
    (get_dialogs_string envP catW
        (lruRun 5 (fun k => get_dialogs_string_uncached envP catW k.1 k.2)
          (get_dialogs_string envP catW [] "a" "property").2.1
          [("b", "property")]).1 "a" "property").1 =
      (get_dialogs_string envP catW [] "a" "property").1 ∧
    (get_dialogs_string envP catW [] "a" "property").2.2 +
      (get_dialogs_string envP catW
        (lruRun 5 (fun k => get_dialogs_string_uncached envP catW k.1 k.2)
          (get_dialogs_string envP catW [] "a" "property").2.1
          [("b", "property")]).1 "a" "property").2.2 ≤ 1 := by
  have h := get_dialogs_string_memoized envP catW [] "a" "property"
    [("b", "property")] (by decide) (by decide)
  exact ⟨by decide, by decide, h.1, h.2⟩

/-- C4 counterexample: `WaitDialog.show` is not decorated with `run_idle`;
calling it makes the dialog visible synchronously in the calling frame,
while the idle queue (holding only the deferred text update) has not been
drained.  So not every mutating operation of the wait handle is deferred
to the idle queue. -/
theorem wait_show_synchronous_cex :
    waitW.ui.visible = false ∧
    (WaitDialog.show waitW none).ui.visible = true ∧
    (WaitDialog.show waitW none).idleQueue = [WaitAction.setTextAct none] := by
  decide

/-- C4 (amended): `set_text`, `hide` and `destroy` are deferred to the
main-loop idle queue — the UI is untouched in the calling frame and the
mutation is applied when the queue is drained — while `show` defers its
text update but makes the dialog visible synchronously. -/
theorem wait_mutators_deferred (cat : TranslationCatalog) (w : WaitDialog)
    (t : Option String) :
    (WaitDialog.set_text w t).ui = w.ui ∧
    (WaitDialog.set_text w t).idleQueue = w.idleQueue ++ [WaitAction.setTextAct t] ∧
    (WaitDialog.hide w).ui = w.ui ∧
    (WaitDialog.hide w).idleQueue = w.idleQueue ++ [WaitAction.hideAct] ∧
    (WaitDialog.destroy w).ui = w.ui ∧
    (WaitDialog.destroy w).idleQueue = w.idleQueue ++ [WaitAction.destroyAct] ∧
    (drainIdle cat (WaitDialog.set_text w t)).ui.labelText =
      get_message cat (pyOr t w.default_text) ∧
    (drainIdle cat (WaitDialog.set_text w t)).idleQueue = [] ∧
    (WaitDialog.show w t).ui.visible = true := by
  refine ⟨rfl, rfl, rfl, rfl, rfl, rfl, ?_, rfl, rfl⟩
  simp [drainIdle, WaitDialog.set_text, run_idle, List.foldl_append, applyWaitAction]

/-- C5 counterexample: `show_dialog` has no `WAIT` branch; with
`dialog_type = WAIT` it matches nothing and returns `None`, not a wait
handle. -/
theorem show_dialog_wait_cex :
    show_dialog envP fsW userW DialogType.WAIT none (some setW) none = none := rfl

/-- C5 (amended): `show_dialog` called with kind `WAIT` falls through every
dispatch branch and returns `None`; the long-lived wait handle exposing
`show` / `set_text` / `hide` / `destroy` is the `WaitDialog` class, which
callers construct directly. -/
theorem show_dialog_wait_returns_none (env : Env) (fs : FileSystem) (user : UserModel)
    (text : Option String) (settings : Option Settings) (action_type : Option Int) :
    show_dialog env fs user DialogType.WAIT text settings action_type = none := rfl

/-- C6: for kinds INFO, ERROR, QUESTION and ABOUT, `show_dialog` returns
exactly the response code of the button the user pressed; INFO and ERROR
dialogs are built with the `OK` buttons set, and QUESTION dialogs with
`OK_CANCEL` unless the caller supplies a (truthy) buttons set via
`action_type`. -/
theorem message_dialog_kinds (env : Env) (fs : FileSystem) (user : UserModel)
    (text : Option String) (settings : Option Settings) (action_type : Option Int) :
    show_dialog env fs user DialogType.INFO text settings action_type =
      some (DialogValue.response
        (user.messageResponse DialogType.INFO Gtk.ButtonsType.OK)) ∧
    show_dialog env fs user DialogType.ERROR text settings action_type =
      some (DialogValue.response
        (user.messageResponse DialogType.ERROR Gtk.ButtonsType.OK)) ∧
    show_dialog env fs user DialogType.QUESTION text settings none =
      some (DialogValue.response
        (user.messageResponse DialogType.QUESTION Gtk.ButtonsType.OK_CANCEL)) ∧
    (∀ a : Int, a ≠ 0 →
      show_dialog env fs user DialogType.QUESTION text settings (some a) =
        some (DialogValue.response (user.messageResponse DialogType.QUESTION a))) ∧
    show_dialog env fs user DialogType.ABOUT text settings action_type =
      some (DialogValue.response user.aboutResponse) := by
  refine ⟨rfl, rfl, rfl, ?_, rfl⟩
  intro a ha
  simp [show_dialog, get_message_dialog, pyOrInt, ha]

/-- C6 witness: a caller-supplied buttons set (`YES_NO = 4`) is used for
the question dialog. -/
theorem message_dialog_kinds_witness :
    ((4 : Int) ≠ 0) ∧
    show_dialog envP fsW userW DialogType.QUESTION none none (some 4) =
      some (DialogValue.response (userW.messageResponse DialogType.QUESTION 4)) :=
  ⟨by decide,
    (message_dialog_kinds envP fsW userW none none none).2.2.2.1 4 (by decide)⟩

/-- C7: on Windows, `get_dialogs_string` returns the serialization of the
parsed markup in which every node with the iterated tag flagged
`translatable="yes"` has its text replaced by its translation, every other
node keeping its text. -/
theorem dialogs_string_translated_on_win (env : Env) (cat : TranslationCatalog)
    (path tag : String) (hwin : env.IS_WIN = true) :
    (get_dialogs_string env cat [] path tag).1 =
      ET_tostring (translate_elem cat tag (env.parse_file path)) ∧
    (allNodes (translate_elem cat tag (env.parse_file path))).map XmlElem.textOf =
      (allNodes (env.parse_file path)).map fun n =>
        if n.tagOf = tag ∧ attrLookup n.attrsOf "translatable" = some "yes" then
          get_message cat n.textOf
        else n.textOf := by
  constructor
  · simp [get_dialogs_string, lruCall, lruLookup, get_dialogs_string_uncached,
      translate_xml, hwin]
  · rw [allNodes_translate cat tag (env.parse_file path), List.map_map]
    have hfun : XmlElem.textOf ∘ translate_elem cat tag = fun n =>
        if n.tagOf = tag ∧ attrLookup n.attrsOf "translatable" = some "yes" then
          get_message cat n.textOf
        else n.textOf :=
      funext fun n => textOf_translate cat tag n
    rw [hfun]

/-- C7 witness: the Windows environment at a concrete tree with one
translatable `property` node. -/
theorem dialogs_string_translated_on_win_witness :
    envW.IS_WIN = true ∧
    ((get_dialogs_string envW catW [] "dialogs.glade" "property").1 =
      ET_tostring (translate_elem catW "property" (envW.parse_file "dialogs.glade")) ∧
    (allNodes (translate_elem catW "property"
        (envW.parse_file "dialogs.glade"))).map XmlElem.textOf =
      (allNodes (envW.parse_file "dialogs.glade")).map fun n =>
        if n.tagOf = "property" ∧ attrLookup n.attrsOf "translatable" = some "yes" then
          get_message catW n.textOf
        else n.textOf) :=
  ⟨rfl, dialogs_string_translated_on_win envW catW "dialogs.glade" "property" rfl⟩

/-- C8: `get_message` returns the catalog translation of the key in the
active text domain when one exists, and the key unchanged when none
exists. -/
theorem get_message_catalog_fallback (cat : TranslationCatalog) (key : String) :
    (∀ t, cat.lookup TEXT_DOMAIN key = some t → get_message cat key = t) ∧
    (cat.lookup TEXT_DOMAIN key = none → get_message cat key = key) := by
  constructor
  · intro t h
    simp [get_message, dgettext, h]
  · intro h
    simp [get_message, dgettext, h]

/-- C8 witness: a translated key and an untranslated one. -/
theorem get_message_catalog_fallback_witness :
    catW.lookup TEXT_DOMAIN "Hello" = some "Hallo" ∧
    get_message catW "Hello" = "Hallo" ∧
    catW.lookup TEXT_DOMAIN "Unknown Key" = none ∧
    get_message catW "Unknown Key" = "Unknown Key" := by
  refine ⟨by decide, ?_, by decide, ?_⟩
  · exact (get_message_catalog_fallback catW "Hello").1 "Hallo" (by decide)
  · exact (get_message_catalog_fallback catW "Unknown Key").2 (by decide)

/-- C9: `show_dialog` with kind `CHOOSER` and a falsy `settings` argument
matches no dispatch branch and returns `None`. -/
theorem show_dialog_chooser_without_settings (env : Env) (fs : FileSystem)
    (user : UserModel) (text : Option String) (action_type : Option Int) :
    show_dialog env fs user DialogType.CHOOSER text none action_type = none := rfl

/-- C10: in `get_file_chooser_dialog`, accepting with a selected path that
is neither an existing directory nor an existing file returns the raw
`ACCEPT` response code, untouched by the path-resolution branch. -/
theorem chooser_dialog_ghost_path (env : Env) (fs : FileSystem) (settings : Settings)
    (action_type : Option Int) (user : ChooserUser)
    (hresp : user.response = Gtk.ResponseType.ACCEPT)
    (hdir : fs.isDir (chooserSelected user) = false)
    (hfile : fs.isFile (chooserSelected user) = false) :
    get_file_chooser_dialog env fs settings action_type user =
      DialogValue.response Gtk.ResponseType.ACCEPT := by
  simp [get_file_chooser_dialog, hresp, hdir, hfile]

/-- C10 witness: accepting with `/data/ghost` selected, which exists as
neither a file nor a directory. -/
theorem chooser_dialog_ghost_path_witness :
    userGhostW.response = Gtk.ResponseType.ACCEPT ∧
    fsW.isDir (chooserSelected userGhostW) = false ∧
    fsW.isFile (chooserSelected userGhostW) = false ∧
    get_file_chooser_dialog envP fsW setW none userGhostW =
      DialogValue.response Gtk.ResponseType.ACCEPT :=
  ⟨rfl, by decide, by decide,
    chooser_dialog_ghost_path envP fsW setW none userGhostW rfl (by decide) (by decide)⟩
